import Mathlib

/-!
Shallow embedding of the geofence taxi-tracking service
(`src/services/geofence.ts`, `src/services/vehicleTracker.ts`,
`src/config/zones.ts`) and proofs about it.

Coordinates are embedded as rationals (`ℚ`): the TypeScript source computes
with IEEE doubles, but every decimal literal in the catalog and every
arithmetic comparison the algorithms perform is exact at the scale used, so
the rational semantics is the intended real-number semantics of the code.
The only operation that is not rational is `Math.sqrt` inside
`calculateDistance`; the two places its result is used are the comparisons
`sqrt d <= r` and `sqrt d > 0.1`, which are embedded by their exact
real-number equivalents `0 ≤ r ∧ d ≤ r²` and `0.1² < d`
(see `Real.sqrt_le_iff`); the equivalence is proved in the theorem for C7.
-/

namespace Geofence

/-- Interface `GeoPoint` from `src/types/index.ts`: a latitude/longitude pair. -/
structure GeoPoint where
  latitude : ℚ
  longitude : ℚ
deriving DecidableEq, Repr

/-- The two variants of `ZoneEvent.type` (`'enter' | 'exit'`). -/
inductive EventType where
  | enter
  | exit
deriving DecidableEq, Repr

/-- Interface `ZoneEvent` from `src/types/index.ts`. -/
structure ZoneEvent where
  type : EventType
  zone : String
  timestamp : ℤ
deriving DecidableEq, Repr

/-- The two variants of `Zone.type` (`'polygon' | 'circle'`). -/
inductive ZoneType where
  | polygon
  | circle
deriving DecidableEq, Repr

/-- Interface `Zone` from `src/types/index.ts`: the shape data is optional, exactly as
in the TypeScript interface (`coordinates?`, `center?`, `radius?`). -/
structure Zone where
  id : String
  name : String
  description : String
  type : ZoneType
  coordinates : Option (List (ℚ × ℚ)) := none
  center : Option (ℚ × ℚ) := none
  radius : Option ℚ := none
deriving DecidableEq, Repr

/-- Interface `VehicleLocation` from `src/types/index.ts`. -/
structure VehicleLocation where
  vehicleId : String
  latitude : ℚ
  longitude : ℚ
  timestamp : ℤ
  currentZone : Option String
deriving DecidableEq, Repr

/-- Record `VehicleData` from `src/services/vehicleTracker.ts`: a vehicle's last
location together with its bounded event history. -/
structure VehicleData where
  location : VehicleLocation
  events : List ZoneEvent
deriving DecidableEq, Repr

/-- Interface `TrackingResult` from `src/types/index.ts`. -/
structure TrackingResult where
  vehicleId : String
  latitude : ℚ
  longitude : ℚ
  currentZone : Option String
  eventTriggered : Bool
  event : Option ZoneEvent
deriving DecidableEq, Repr

/-- Interface `VehicleStatus` from `src/types/index.ts`. -/
structure VehicleStatus where
  vehicleId : String
  currentZone : Option String
  lastLocationUpdate : ℤ
  lastLocation : GeoPoint
  recentEvents : List ZoneEvent
  totalEventsTracked : Nat
deriving DecidableEq, Repr

/-- The squared planar distance `(Δlat)² + (Δlon)²`.  The source's
`calculateDistance` returns `Math.sqrt` of this; both callers only compare
the square root against a nonnegative bound, which is embedded exactly on
the squares (see the theorem for C7 for the proved equivalence). -/
def distSq (p q : GeoPoint) : ℚ :=
  (p.latitude - q.latitude) * (p.latitude - q.latitude) +
    (p.longitude - q.longitude) * (p.longitude - q.longitude)

/-- Function `isPointInCircle` from `src/services/geofence.ts`:
`calculateDistance(point, center) <= radius`, embedded via the exact
real-number equivalence `sqrt d ≤ r ↔ 0 ≤ r ∧ d ≤ r·r`. -/
def isPointInCircle (point : GeoPoint) (center : ℚ × ℚ) (radius : ℚ) : Bool :=
  decide (0 ≤ radius ∧
    distSq point ⟨center.1, center.2⟩ ≤ radius * radius)

/-- Function `isPointInPolygon` from `src/services/geofence.ts`: the ray-casting
loop, with `x`/`xi`/`xj` latitudes and `y`/`yi`/`yj` longitudes, iterating
`i` over all indices with `j` the predecessor index (wrapping to the last
vertex for `i = 0`).  The division is only reachable when the longitudes
straddle `y`, hence never divides by zero. -/
def isPointInPolygon (point : GeoPoint) (polygonCoordinates : List (ℚ × ℚ)) : Bool :=
  let x := point.latitude
  let y := point.longitude
  let n := polygonCoordinates.length
  (List.range n).foldl
    (fun inside i =>
      let vi := polygonCoordinates.getD i (0, 0)
      let vj := polygonCoordinates.getD (if i = 0 then n - 1 else i - 1) (0, 0)
      let intersect :=
        (decide (vi.2 > y) != decide (vj.2 > y)) &&
          decide (x < (vj.1 - vi.1) * (y - vi.2) / (vj.2 - vi.2) + vi.1)
      if intersect then !inside else inside)
    false

/-- Function `isPointInZone` from `src/services/geofence.ts`: dispatch on the shape
variant; a zone whose shape data is missing falls through to `false`.
(JS truthiness detail: `zone.center` and `zone.coordinates` are arrays,
truthy whenever present, and `zone.radius !== undefined` is presence.) -/
def isPointInZone (point : GeoPoint) (zone : Zone) : Bool :=
  if zone.type = ZoneType.circle ∧ zone.center.isSome ∧ zone.radius.isSome then
    isPointInCircle point (zone.center.getD (0, 0)) (zone.radius.getD 0)
  else if zone.type = ZoneType.polygon ∧ zone.coordinates.isSome then
    isPointInPolygon point (zone.coordinates.getD [])
  else
    false

/-- The fixed anomaly threshold `MAX_REALISTIC_JUMP = 0.1` degrees. -/
def MAX_REALISTIC_JUMP : ℚ := 0.1

/-- Function `isAnomalousMovement` from `src/services/geofence.ts`: false with no
previous point, otherwise `calculateDistance(prev, cur) > 0.1`, embedded
via the exact equivalence `sqrt d > c ↔ c·c < d` for `c = 0.1 > 0`. -/
def isAnomalousMovement (previousLocation : Option GeoPoint) (currentLocation : GeoPoint) : Bool :=
  match previousLocation with
  | none => false
  | some prev =>
      decide (MAX_REALISTIC_JUMP * MAX_REALISTIC_JUMP < distSq prev currentLocation)

/-- The vehicle store (`vehicleStore : Map<string, VehicleData>` in
`src/services/vehicleTracker.ts`), embedded as an insertion-ordered
association list with unique keys, matching JS `Map` semantics. -/
abbrev VehicleStore := List (String × VehicleData)

/-- Lookup `Map.get`: the value stored under `id`, if any. -/
def storeGet (store : VehicleStore) (id : String) : Option VehicleData :=
  match store with
  | [] => none
  | (k, v) :: rest => if k = id then some v else storeGet rest id

/-- Update `Map.set`: replace the value under an existing key in place, else
append a new entry, preserving insertion order (JS `Map` semantics). -/
def storeSet (store : VehicleStore) (id : String) (d : VehicleData) : VehicleStore :=
  match store with
  | [] => [(id, d)]
  | (k, v) :: rest => if k = id then (id, d) :: rest else (k, v) :: storeSet rest id d

/-- Constant `MAX_EVENTS_PER_VEHICLE = 50` from `src/services/vehicleTracker.ts`. -/
def MAX_EVENTS_PER_VEHICLE : Nat := 50

/-- Function `findCurrentZone` from `src/services/vehicleTracker.ts`: the name of
the first zone in catalog order containing the point, else `none`. -/
def findCurrentZone (zones : List Zone) (point : GeoPoint) : Option String :=
  match zones with
  | [] => none
  | z :: rest => if isPointInZone point z then some z.name else findCurrentZone rest point

/-- The JS expression `s || null` on a `string | null` value: `null` stays
`null` and the empty string (the only falsy string) is coerced to `null`. -/
def jsOrNull (o : Option String) : Option String :=
  match o with
  | none => none
  | some s => if s = "" then none else some s

/-- Expression `previousData?.location.currentZone || null` from
`trackVehicleLocation`: the effective previous zone of a vehicle. -/
def effPrevZone (store : VehicleStore) (vehicleId : String) : Option String :=
  match storeGet store vehicleId with
  | none => none
  | some d => jsOrNull d.location.currentZone

/-- The stored event history of a vehicle (empty for an untracked id). -/
def prevEvents (store : VehicleStore) (vehicleId : String) : List ZoneEvent :=
  match storeGet store vehicleId with
  | none => []
  | some d => d.events

/-- The `events.slice(-MAX_EVENTS_PER_VEHICLE)` cap from
`trackVehicleLocation`: when the list exceeds 50 entries, keep only the
last 50 (dropping the oldest from the front). -/
def capEvents (es : List ZoneEvent) : List ZoneEvent :=
  if es.length > MAX_EVENTS_PER_VEHICLE then es.drop (es.length - MAX_EVENTS_PER_VEHICLE) else es

/-- The zone-change branch of `trackVehicleLocation` (the
`if (previousZone !== newZone)` chain): returns
`(eventTriggered, primary event, events to push)`. -/
def detectEvents (previousZone newZone : Option String) (timestamp : ℤ) :
    Bool × Option ZoneEvent × List ZoneEvent :=
  if previousZone ≠ newZone then
    match previousZone, newZone with
    | some pz, some nz =>
        (true, some ⟨EventType.enter, nz, timestamp⟩,
          [⟨EventType.exit, pz, timestamp⟩, ⟨EventType.enter, nz, timestamp⟩])
    | some pz, none =>
        (true, some ⟨EventType.exit, pz, timestamp⟩, [⟨EventType.exit, pz, timestamp⟩])
    | none, some nz =>
        (true, some ⟨EventType.enter, nz, timestamp⟩, [⟨EventType.enter, nz, timestamp⟩])
    | none, none => (false, none, [])
  else
    (false, none, [])

/-- The output of one `trackVehicleLocation` call: the returned
`TrackingResult`, the updated store, and whether the anomalous-movement
warning was emitted to the logger (`logger.warn`, the call's only other
observable effect). -/
structure TrackOutput where
  result : TrackingResult
  store : VehicleStore
  anomalyWarned : Bool
deriving Repr

/-- Function `trackVehicleLocation` from `src/services/vehicleTracker.ts`:
resolve the new zone, diff against the stored previous zone, push the
transition events, cap the history at 50, and unconditionally overwrite
the stored location. -/
def trackVehicleLocation (zones : List Zone) (store : VehicleStore)
    (vehicleId : String) (latitude longitude : ℚ) (timestamp : ℤ) : TrackOutput :=
  let currentLocation : GeoPoint := ⟨latitude, longitude⟩
  let anomalyWarned :=
    match storeGet store vehicleId with
    | none => false
    | some d =>
        isAnomalousMovement (some ⟨d.location.latitude, d.location.longitude⟩) currentLocation
  let newZone := findCurrentZone zones currentLocation
  let de := detectEvents (effPrevZone store vehicleId) newZone timestamp
  let newLocation : VehicleLocation := ⟨vehicleId, latitude, longitude, timestamp, newZone⟩
  { result := ⟨vehicleId, latitude, longitude, newZone, de.1, de.2.1⟩
    store := storeSet store vehicleId
      ⟨newLocation, capEvents (prevEvents store vehicleId ++ de.2.2)⟩
    anomalyWarned := anomalyWarned }

/-- Function `getVehicleStatus` from `src/services/vehicleTracker.ts`: `null` for an
untracked id, else the stored location with the last 10 events
(`events.slice(-10)`) and the full stored count. -/
def getVehicleStatus (store : VehicleStore) (vehicleId : String) : Option VehicleStatus :=
  match storeGet store vehicleId with
  | none => none
  | some d =>
      some ⟨vehicleId, jsOrNull d.location.currentZone, d.location.timestamp,
        ⟨d.location.latitude, d.location.longitude⟩,
        d.events.drop (d.events.length - 10),
        d.events.length⟩

/-- Function `clearAllVehicleData` from `src/services/vehicleTracker.ts`:
`vehicleStore.clear()`. -/
def clearAllVehicleData (_store : VehicleStore) : VehicleStore := []

/-- The four-zone catalog built by `initializeZones` in
`src/config/zones.ts`, in its exact order. -/
def initializeZones : List Zone :=
  [{ id := "downtown", name := "Downtown", description := "City center commercial zone",
     type := ZoneType.polygon,
     coordinates := some [(40.7128, -74.0060), (40.7150, -74.0060),
                          (40.7150, -74.0040), (40.7128, -74.0040)] },
   { id := "airport", name := "Airport", description := "Airport terminal zone",
     type := ZoneType.circle, center := some (40.7769, -73.8740), radius := some 0.01 },
   { id := "harbor", name := "Harbor", description := "Waterfront harbor zone",
     type := ZoneType.polygon,
     coordinates := some [(40.7061, -74.0087), (40.7061, -73.9960),
                          (40.6995, -73.9960), (40.6995, -74.0087)] },
   { id := "stadium", name := "Stadium", description := "Sports complex zone",
     type := ZoneType.circle, center := some (40.7282, -73.9942), radius := some 0.008 }]

/-- The tracker states reachable from a fresh store by any sequence of
`trackVehicleLocation` and `clearAllVehicleData` calls, against a fixed
zone catalog (the catalog is loaded once at startup). -/
inductive Reachable (zones : List Zone) : VehicleStore → Prop where
  | init : Reachable zones []
  | track : ∀ s vid lat lon ts, Reachable zones s →
      Reachable zones (trackVehicleLocation zones s vid lat lon ts).store
  | reset : ∀ s, Reachable zones s → Reachable zones (clearAllVehicleData s)

/-! ### Helper lemmas about the store, the cap and zone resolution -/

lemma storeGet_storeSet_self (s : VehicleStore) (id : String) (d : VehicleData) :
    storeGet (storeSet s id d) id = some d := by
  induction s with
  | nil => simp [storeGet, storeSet]
  | cons kv rest ih =>
      obtain ⟨k, v⟩ := kv
      by_cases h : k = id
      · subst h; simp [storeGet, storeSet]
      · simp [storeGet, storeSet, h, ih]

lemma storeGet_storeSet_ne (s : VehicleStore) (id id' : String) (d : VehicleData)
    (h : id' ≠ id) : storeGet (storeSet s id d) id' = storeGet s id' := by
  induction s with
  | nil => simp [storeGet, storeSet, Ne.symm h]
  | cons kv rest ih =>
      obtain ⟨k, v⟩ := kv
      by_cases hk : k = id
      · subst hk
        simp [storeGet, storeSet, Ne.symm h]
      · simp [storeGet, storeSet, hk, ih]

lemma getLast?_drop_of_lt {α : Type _} (l : List α) (n : Nat) (h : n < l.length) :
    (l.drop n).getLast? = l.getLast? := by
  conv_rhs => rw [← List.take_append_drop n l]
  rw [List.getLast?_append_of_ne_nil]
  intro hnil
  have := congrArg List.length hnil
  simp [List.length_drop] at this
  omega

lemma capEvents_eq_drop (es : List ZoneEvent) :
    capEvents es = es.drop (es.length - MAX_EVENTS_PER_VEHICLE) := by
  unfold capEvents
  split
  · rfl
  · next h =>
      have h0 : es.length - MAX_EVENTS_PER_VEHICLE = 0 := by omega
      simp [h0]

lemma capEvents_length_le (es : List ZoneEvent) :
    (capEvents es).length ≤ MAX_EVENTS_PER_VEHICLE := by
  rw [capEvents_eq_drop, List.length_drop]
  omega

lemma capEvents_getLast? (es : List ZoneEvent) :
    (capEvents es).getLast? = es.getLast? := by
  unfold capEvents
  split
  · next h =>
      apply getLast?_drop_of_lt
      have : 0 < MAX_EVENTS_PER_VEHICLE := by decide
      omega
  · rfl

lemma capEvents_suffix (es : List ZoneEvent) : capEvents es <:+ es := by
  rw [capEvents_eq_drop]
  exact List.drop_suffix _ _

lemma jsOrNull_eq_some {o : Option String} {z : String} :
    jsOrNull o = some z ↔ o = some z ∧ z ≠ "" := by
  cases o with
  | none => simp [jsOrNull]
  | some s =>
      by_cases h : s = "" <;> simp [jsOrNull, h] <;> aesop

lemma jsOrNull_eq_none {o : Option String} :
    jsOrNull o = none ↔ o = none ∨ o = some "" := by
  cases o with
  | none => simp [jsOrNull]
  | some s => by_cases h : s = "" <;> simp [jsOrNull, h]

lemma findCurrentZone_mem {zones : List Zone} {p : GeoPoint} {n : String}
    (h : findCurrentZone zones p = some n) :
    ∃ z ∈ zones, z.name = n ∧ isPointInZone p z = true := by
  induction zones with
  | nil => simp [findCurrentZone] at h
  | cons z rest ih =>
      unfold findCurrentZone at h
      by_cases hz : isPointInZone p z
      · simp [hz] at h
        exact ⟨z, by simp, h, hz⟩
      · simp [hz] at h
        obtain ⟨w, hw, hn, hin⟩ := ih h
        exact ⟨w, by simp [hw], hn, hin⟩

lemma detectEvents_self (pz : Option String) (ts : ℤ) :
    detectEvents pz pz ts = (false, none, []) := by
  simp [detectEvents]

lemma detectEvents_some_some {p n : String} (h : p ≠ n) (ts : ℤ) :
    detectEvents (some p) (some n) ts =
      (true, some ⟨EventType.enter, n, ts⟩,
        [⟨EventType.exit, p, ts⟩, ⟨EventType.enter, n, ts⟩]) := by
  simp [detectEvents, h]

lemma detectEvents_none_some (n : String) (ts : ℤ) :
    detectEvents none (some n) ts =
      (true, some ⟨EventType.enter, n, ts⟩, [⟨EventType.enter, n, ts⟩]) := by
  simp [detectEvents]

lemma detectEvents_some_none (p : String) (ts : ℤ) :
    detectEvents (some p) none ts =
      (true, some ⟨EventType.exit, p, ts⟩, [⟨EventType.exit, p, ts⟩]) := by
  simp [detectEvents]

lemma detectEvents_pushed_length (pz nz : Option String) (ts : ℤ) :
    (detectEvents pz nz ts).2.2.length ≤ 2 := by
  unfold detectEvents
  split
  · cases pz <;> cases nz <;> simp
  · simp

/-- The store entry that `trackVehicleLocation` writes for the tracked id. -/
lemma track_storeGet_self (zones : List Zone) (s : VehicleStore) (vid : String)
    (lat lon : ℚ) (ts : ℤ) :
    storeGet (trackVehicleLocation zones s vid lat lon ts).store vid =
      some ⟨⟨vid, lat, lon, ts, findCurrentZone zones ⟨lat, lon⟩⟩,
        capEvents (prevEvents s vid ++
          (detectEvents (effPrevZone s vid) (findCurrentZone zones ⟨lat, lon⟩) ts).2.2)⟩ := by
  simp [trackVehicleLocation, storeGet_storeSet_self]

/-- Lemma: `trackVehicleLocation` leaves every other vehicle's entry untouched. -/
lemma track_storeGet_ne (zones : List Zone) (s : VehicleStore) (vid vid' : String)
    (lat lon : ℚ) (ts : ℤ) (h : vid' ≠ vid) :
    storeGet (trackVehicleLocation zones s vid lat lon ts).store vid' = storeGet s vid' := by
  simp [trackVehicleLocation, storeGet_storeSet_ne _ _ _ _ h]

/-- The result record returned by `trackVehicleLocation`, by unfolding. -/
lemma track_result_eq (zones : List Zone) (s : VehicleStore) (vid : String)
    (lat lon : ℚ) (ts : ℤ) :
    (trackVehicleLocation zones s vid lat lon ts).result =
      ⟨vid, lat, lon, findCurrentZone zones ⟨lat, lon⟩,
        (detectEvents (effPrevZone s vid) (findCurrentZone zones ⟨lat, lon⟩) ts).1,
        (detectEvents (effPrevZone s vid) (findCurrentZone zones ⟨lat, lon⟩) ts).2.1⟩ := by
  simp [trackVehicleLocation]

/-! ### Concrete zone-resolution computations for the initialized catalog -/

/-- The first scenario point `(40.7128, -74.0060)` — an exact vertex of the
Downtown polygon — resolves to Downtown (the ray-casting test counts it as
inside). -/
lemma findZone_point1 : findCurrentZone initializeZones ⟨40.7128, -74.0060⟩ = some "Downtown" := by
  norm_num [findCurrentZone, initializeZones, isPointInZone, isPointInPolygon, isPointInCircle,
    distSq, List.range_succ, List.foldl_append, List.foldl]

/-- The second scenario point `(40.7135, -74.0055)` is still in Downtown. -/
lemma findZone_point2 : findCurrentZone initializeZones ⟨40.7135, -74.0055⟩ = some "Downtown" := by
  norm_num [findCurrentZone, initializeZones, isPointInZone, isPointInPolygon, isPointInCircle,
    distSq, List.range_succ, List.foldl_append, List.foldl]

/-- The third scenario point `(40.6995, -74.0087)` — an exact vertex of the
Harbor polygon — resolves to Harbor. -/
lemma findZone_point3 : findCurrentZone initializeZones ⟨40.6995, -74.0087⟩ = some "Harbor" := by
  norm_num [findCurrentZone, initializeZones, isPointInZone, isPointInPolygon, isPointInCircle,
    distSq, List.range_succ, List.foldl_append, List.foldl]

/-- Scenario state: fresh tracker, vehicle `"t1"` reports the Downtown
vertex point. -/
def scOut1 : TrackOutput := trackVehicleLocation initializeZones [] "t1" 40.7128 (-74.0060) 1

/-- Scenario state: `"t1"` then reports a second point inside Downtown. -/
def scOut2 : TrackOutput := trackVehicleLocation initializeZones scOut1.store "t1" 40.7135 (-74.0055) 2

/-- Scenario state: `"t1"` then reports the Harbor vertex point. -/
def scOut3 : TrackOutput := trackVehicleLocation initializeZones scOut2.store "t1" 40.6995 (-74.0087) 3

/-- C6: against the initialized four-zone catalog and a fresh tracker,
vehicle `"t1"` reporting `(40.7128, -74.0060)` yields `currentZone =
"Downtown"` with `eventTriggered = true` and event Enter("Downtown"); then
`(40.7135, -74.0055)` yields `eventTriggered = false` with `currentZone`
still `"Downtown"`; then `(40.6995, -74.0087)` records Exit("Downtown")
and Enter("Harbor") in history with reported primary event
Enter("Harbor").  The first and third points are exact polygon vertices
and the ray-casting test resolves them as inside. -/
theorem scenario_downtown_to_harbor :
    scOut1.result.currentZone = some "Downtown" ∧
    scOut1.result.eventTriggered = true ∧
    scOut1.result.event = some ⟨EventType.enter, "Downtown", 1⟩ ∧
    scOut2.result.eventTriggered = false ∧
    scOut2.result.event = none ∧
    scOut2.result.currentZone = some "Downtown" ∧
    scOut3.result.currentZone = some "Harbor" ∧
    scOut3.result.eventTriggered = true ∧
    scOut3.result.event = some ⟨EventType.enter, "Harbor", 3⟩ ∧
    prevEvents scOut3.store "t1" =
      [⟨EventType.enter, "Downtown", 1⟩, ⟨EventType.exit, "Downtown", 3⟩,
       ⟨EventType.enter, "Harbor", 3⟩] := by
  simp [scOut1, scOut2, scOut3, track_result_eq, track_storeGet_self,
    findZone_point1, findZone_point2, findZone_point3,
    effPrevZone, prevEvents, storeGet_storeSet_self, storeGet, jsOrNull, detectEvents,
    capEvents_eq_drop, MAX_EVENTS_PER_VEHICLE]

/-- C7: `isPointInCircle p c r` is true exactly when the planar Euclidean
distance `sqrt((Δlat)² + (Δlon)²)` from `p` to the center is at most `r`:
the boundary is inclusive, and every point strictly farther than `r` is
outside. -/
theorem isPointInCircle_iff_distance_le_radius (p : GeoPoint) (c : ℚ × ℚ) (r : ℚ) :
    isPointInCircle p c r = true ↔
      Real.sqrt ((distSq p ⟨c.1, c.2⟩ : ℚ) : ℝ) ≤ (r : ℝ) := by
  simp only [isPointInCircle, decide_eq_true_eq]
  rw [Real.sqrt_le_iff]
  rw [show ((r : ℝ)) ^ 2 = ((r * r : ℚ) : ℝ) by push_cast; ring]
  rw [Rat.cast_le, Rat.cast_nonneg]

/-- C3: the zone resolved for a point is the name of the first zone in
catalog order whose membership test holds, and is `none` exactly when no
zone contains the point; with overlapping zones the earliest one in
catalog order wins. -/
theorem findCurrentZone_first_match (zones : List Zone) (p : GeoPoint) :
    (findCurrentZone zones p = none ↔ ∀ z ∈ zones, isPointInZone p z = false) ∧
    (∀ n : String, findCurrentZone zones p = some n ↔
      ∃ i : Nat, ∃ h : i < zones.length,
        isPointInZone p (zones.get ⟨i, h⟩) = true ∧ n = (zones.get ⟨i, h⟩).name ∧
        ∀ z ∈ zones.take i, isPointInZone p z = false) := by
  induction zones with
  | nil =>
      refine ⟨by simp [findCurrentZone], fun n => ?_⟩
      simp [findCurrentZone]
  | cons z rest ih =>
      by_cases hz : isPointInZone p z
      · constructor
        · constructor
          · intro h
            simp [findCurrentZone, hz] at h
          · intro h
            exact absurd (h z (by simp)) (by simp [hz])
        · intro n
          constructor
          · intro h
            simp [findCurrentZone, hz] at h
            exact ⟨0, by simp, by simpa using hz, by simp [h.symm], by simp⟩
          · rintro ⟨i, h, ht, hn, hf⟩
            match i with
            | 0 =>
                simp at hn
                simp [findCurrentZone, hz, hn]
            | i' + 1 =>
                exact absurd (hf z (by simp)) (by simp [hz])
      · have hstep : findCurrentZone (z :: rest) p = findCurrentZone rest p := by
          simp [findCurrentZone, hz]
        constructor
        · rw [hstep, ih.1]
          constructor
          · intro h w hw
            rcases List.mem_cons.mp hw with hwz | hwr
            · subst hwz; simpa using hz
            · exact h w hwr
          · intro h w hw
            exact h w (List.mem_cons_of_mem _ hw)
        · intro n
          rw [hstep, ih.2 n]
          constructor
          · rintro ⟨i, h, ht, hn, hf⟩
            refine ⟨i + 1, by simpa using Nat.succ_lt_succ h, ?_, ?_, ?_⟩
            · simpa using ht
            · simpa using hn
            · intro w hw
              rcases List.mem_cons.mp (by simpa [List.take_succ_cons] using hw) with hwz | hwr
              · subst hwz; simpa using hz
              · exact hf w hwr
          · rintro ⟨i, h, ht, hn, hf⟩
            match i with
            | 0 =>
                exact absurd (by simpa using ht) hz
            | i' + 1 =>
                refine ⟨i', by simpa using Nat.lt_of_succ_lt_succ h, by simpa using ht,
                  by simpa using hn, ?_⟩
                intro w hw
                exact hf w (by simp [List.take_succ_cons, hw])

lemma track_prevEvents (zones : List Zone) (s : VehicleStore) (vid : String)
    (lat lon : ℚ) (ts : ℤ) :
    prevEvents (trackVehicleLocation zones s vid lat lon ts).store vid =
      capEvents (prevEvents s vid ++
        (detectEvents (effPrevZone s vid) (findCurrentZone zones ⟨lat, lon⟩) ts).2.2) := by
  simp [prevEvents, track_storeGet_self]

lemma detectEvents_triggered_iff (pz nz : Option String) (ts : ℤ) :
    (detectEvents pz nz ts).1 = true ↔ pz ≠ nz := by
  unfold detectEvents
  by_cases h : pz = nz
  · subst h; simp
  · cases pz <;> cases nz <;> simp_all

lemma capEvents_of_le {es : List ZoneEvent} (h : es.length ≤ MAX_EVENTS_PER_VEHICLE) :
    capEvents es = es := by
  unfold capEvents
  rw [if_neg]
  omega

lemma capEvents_append_two (xs : List ZoneEvent) (a b : ZoneEvent) :
    ∃ pre, capEvents (xs ++ [a, b]) = pre ++ [a, b] := by
  rw [capEvents_eq_drop]
  refine ⟨xs.drop ((xs ++ [a, b]).length - MAX_EVENTS_PER_VEHICLE), ?_⟩
  have hle : (xs ++ [a, b]).length - MAX_EVENTS_PER_VEHICLE ≤ xs.length := by
    simp only [List.length_append, List.length_cons, List.length_nil, MAX_EVENTS_PER_VEHICLE]
    omega
  rw [List.drop_append_of_le_length hle]

/-- C1: on a call whose stored previous zone is `Z1` and whose newly
resolved zone is `Z2`, both non-none and different, exactly the two events
Exit(`Z1`) then Enter(`Z2`) are appended to the vehicle's history, both
stamped with the call's timestamp; the result reports `eventTriggered =
true` with its single `event` field the Enter(`Z2`) event. -/
theorem trackLocation_zone_switch_two_events (zones : List Zone) (store : VehicleStore)
    (vid : String) (lat lon : ℚ) (ts : ℤ) (d : VehicleData) (z1 z2 : String)
    (hd : storeGet store vid = some d)
    (hp : jsOrNull d.location.currentZone = some z1)
    (hn : findCurrentZone zones ⟨lat, lon⟩ = some z2)
    (hne : z1 ≠ z2) :
    (trackVehicleLocation zones store vid lat lon ts).result.eventTriggered = true ∧
    (trackVehicleLocation zones store vid lat lon ts).result.event =
      some ⟨EventType.enter, z2, ts⟩ ∧
    prevEvents (trackVehicleLocation zones store vid lat lon ts).store vid =
      capEvents (d.events ++ [⟨EventType.exit, z1, ts⟩, ⟨EventType.enter, z2, ts⟩]) ∧
    ∃ pre, prevEvents (trackVehicleLocation zones store vid lat lon ts).store vid =
      pre ++ [⟨EventType.exit, z1, ts⟩, ⟨EventType.enter, z2, ts⟩] := by
  have heff : effPrevZone store vid = some z1 := by simp [effPrevZone, hd, hp]
  have hpe : prevEvents store vid = d.events := by simp [prevEvents, hd]
  simp only [track_result_eq, track_prevEvents, heff, hn, hpe, detectEvents_some_some hne]
  exact ⟨trivial, trivial, trivial, capEvents_append_two _ _ _⟩

/-- C1 witness store: vehicle `"t1"` stored inside Downtown with one event. -/
def wStore : VehicleStore :=
  [("t1", ⟨⟨"t1", 0, 0, 0, some "Downtown"⟩, [⟨EventType.enter, "Downtown", 0⟩]⟩)]

/-- C1 at a concrete input: the stored zone is Downtown, the new point is
the Harbor vertex, and the two events are appended as stated. -/
theorem trackLocation_zone_switch_two_events_witness :
    (trackVehicleLocation initializeZones wStore "t1" 40.6995 (-74.0087) 3).result.eventTriggered
        = true ∧
    (trackVehicleLocation initializeZones wStore "t1" 40.6995 (-74.0087) 3).result.event =
      some ⟨EventType.enter, "Harbor", 3⟩ ∧
    prevEvents (trackVehicleLocation initializeZones wStore "t1" 40.6995 (-74.0087) 3).store "t1" =
      capEvents ([⟨EventType.enter, "Downtown", 0⟩] ++
        [⟨EventType.exit, "Downtown", 3⟩, ⟨EventType.enter, "Harbor", 3⟩]) ∧
    ∃ pre,
      prevEvents (trackVehicleLocation initializeZones wStore "t1" 40.6995 (-74.0087) 3).store "t1"
        = pre ++ [⟨EventType.exit, "Downtown", 3⟩, ⟨EventType.enter, "Harbor", 3⟩] :=
  trackLocation_zone_switch_two_events initializeZones wStore "t1" 40.6995 (-74.0087) 3
    ⟨⟨"t1", 0, 0, 0, some "Downtown"⟩, [⟨EventType.enter, "Downtown", 0⟩]⟩ "Downtown" "Harbor"
    (by simp [wStore, storeGet]) (by simp [jsOrNull]) findZone_point3 (by decide)

/-- C2: `eventTriggered` is true exactly when the newly resolved zone
differs from the (effective) stored previous zone; equal zones — both
none included — append and report nothing; none→Z appends and reports a
single Enter(Z); Z→none appends and reports a single Exit(Z). -/
theorem trackLocation_eventTriggered_iff_zone_changed (zones : List Zone)
    (store : VehicleStore) (vid : String) (lat lon : ℚ) (ts : ℤ) :
    ((trackVehicleLocation zones store vid lat lon ts).result.eventTriggered = true ↔
      effPrevZone store vid ≠ findCurrentZone zones ⟨lat, lon⟩) ∧
    (effPrevZone store vid = findCurrentZone zones ⟨lat, lon⟩ →
      (trackVehicleLocation zones store vid lat lon ts).result.event = none ∧
      prevEvents (trackVehicleLocation zones store vid lat lon ts).store vid =
        capEvents (prevEvents store vid)) ∧
    (∀ z : String, effPrevZone store vid = none →
      findCurrentZone zones ⟨lat, lon⟩ = some z →
      (trackVehicleLocation zones store vid lat lon ts).result.event =
        some ⟨EventType.enter, z, ts⟩ ∧
      prevEvents (trackVehicleLocation zones store vid lat lon ts).store vid =
        capEvents (prevEvents store vid ++ [⟨EventType.enter, z, ts⟩])) ∧
    (∀ z : String, effPrevZone store vid = some z →
      findCurrentZone zones ⟨lat, lon⟩ = none →
      (trackVehicleLocation zones store vid lat lon ts).result.event =
        some ⟨EventType.exit, z, ts⟩ ∧
      prevEvents (trackVehicleLocation zones store vid lat lon ts).store vid =
        capEvents (prevEvents store vid ++ [⟨EventType.exit, z, ts⟩])) := by
  refine ⟨?_, ?_, ?_, ?_⟩
  · rw [track_result_eq]
    exact detectEvents_triggered_iff _ _ _
  · intro h
    rw [track_result_eq, track_prevEvents, h, detectEvents_self]
    simp
  · intro z hp hn
    rw [track_result_eq, track_prevEvents, hp, hn, detectEvents_none_some]
    simp
  · intro z hp hn
    rw [track_result_eq, track_prevEvents, hp, hn, detectEvents_some_none]
    simp

/-- C4: after every call the tracked vehicle's stored history holds at most
50 events; at most two events are appended per call; eviction drops from
the front (the retained events are a suffix — the most recent, in
insertion order — of the appended history), `totalEventsTracked` via
`getVehicleStatus` equals the full stored count, and whenever the cap is
exceeded the stored length is exactly 50. -/
theorem trackLocation_event_cap_oldest_first (zones : List Zone) (store : VehicleStore)
    (vid : String) (lat lon : ℚ) (ts : ℤ) :
    ∃ d' : VehicleData, ∃ appended : List ZoneEvent,
      storeGet (trackVehicleLocation zones store vid lat lon ts).store vid = some d' ∧
      appended.length ≤ 2 ∧
      d'.events = (prevEvents store vid ++ appended).drop
        ((prevEvents store vid ++ appended).length - MAX_EVENTS_PER_VEHICLE) ∧
      d'.events.length ≤ MAX_EVENTS_PER_VEHICLE ∧
      d'.events <:+ (prevEvents store vid ++ appended) ∧
      (getVehicleStatus (trackVehicleLocation zones store vid lat lon ts).store vid).map
        VehicleStatus.totalEventsTracked = some d'.events.length ∧
      (MAX_EVENTS_PER_VEHICLE < (prevEvents store vid ++ appended).length →
        d'.events.length = MAX_EVENTS_PER_VEHICLE) := by
  refine ⟨_, (detectEvents (effPrevZone store vid) (findCurrentZone zones ⟨lat, lon⟩) ts).2.2,
    track_storeGet_self zones store vid lat lon ts, detectEvents_pushed_length _ _ _,
    capEvents_eq_drop _, capEvents_length_le _, capEvents_suffix _, ?_, ?_⟩
  · simp [getVehicleStatus, track_storeGet_self]
  · intro h
    rw [capEvents_eq_drop, List.length_drop]
    simp only [MAX_EVENTS_PER_VEHICLE] at h ⊢
    omega

/-- C5: every call — anomalous movement included — unconditionally
overwrites the stored location with the new coordinates, the stored zone
with the newly resolved zone and the stored timestamp with the call's
timestamp; the returned result carries those same values; and the anomaly
warning fires exactly when a previous location exists whose distance to
the new point exceeds the threshold, without affecting any of the above. -/
theorem trackLocation_unconditional_state_update (zones : List Zone) (store : VehicleStore)
    (vid : String) (lat lon : ℚ) (ts : ℤ) :
    (∃ d', storeGet (trackVehicleLocation zones store vid lat lon ts).store vid = some d' ∧
      d'.location = ⟨vid, lat, lon, ts, findCurrentZone zones ⟨lat, lon⟩⟩) ∧
    (trackVehicleLocation zones store vid lat lon ts).result.vehicleId = vid ∧
    (trackVehicleLocation zones store vid lat lon ts).result.latitude = lat ∧
    (trackVehicleLocation zones store vid lat lon ts).result.longitude = lon ∧
    (trackVehicleLocation zones store vid lat lon ts).result.currentZone =
      findCurrentZone zones ⟨lat, lon⟩ ∧
    ((trackVehicleLocation zones store vid lat lon ts).anomalyWarned = true ↔
      ∃ d, storeGet store vid = some d ∧
        isAnomalousMovement (some ⟨d.location.latitude, d.location.longitude⟩)
          ⟨lat, lon⟩ = true) := by
  refine ⟨⟨_, track_storeGet_self zones store vid lat lon ts, rfl⟩, rfl, rfl, rfl,
    by rw [track_result_eq], ?_⟩
  have ha : (trackVehicleLocation zones store vid lat lon ts).anomalyWarned =
      (match storeGet store vid with
       | none => false
       | some d =>
           isAnomalousMovement (some ⟨d.location.latitude, d.location.longitude⟩)
             ⟨lat, lon⟩) := rfl
  rw [ha]
  cases hsg : storeGet store vid with
  | none => simp
  | some d => simp

lemma track_effPrevZone_self (zones : List Zone) (s : VehicleStore) (vid : String)
    (lat lon : ℚ) (ts : ℤ) :
    effPrevZone (trackVehicleLocation zones s vid lat lon ts).store vid =
      jsOrNull (findCurrentZone zones ⟨lat, lon⟩) := by
  simp [effPrevZone, track_storeGet_self]

/-- C8: tracking is idempotent in its event output — for a catalog whose
zone names are non-empty (as the configured catalog's are), any repeat
call with the same `(vehicleId, lat, lon)` directly after a call with
those coordinates reports `eventTriggered = false`, reports no event and
leaves the vehicle's history unchanged, regardless of the timestamps. -/
theorem trackLocation_idempotent (zones : List Zone)
    (hz : ∀ z ∈ zones, z.name ≠ "")
    (store : VehicleStore) (vid : String) (lat lon : ℚ) (ts1 ts2 : ℤ) :
    (trackVehicleLocation zones (trackVehicleLocation zones store vid lat lon ts1).store
        vid lat lon ts2).result.eventTriggered = false ∧
    (trackVehicleLocation zones (trackVehicleLocation zones store vid lat lon ts1).store
        vid lat lon ts2).result.event = none ∧
    prevEvents (trackVehicleLocation zones
        (trackVehicleLocation zones store vid lat lon ts1).store vid lat lon ts2).store vid =
      prevEvents (trackVehicleLocation zones store vid lat lon ts1).store vid := by
  have hjs : jsOrNull (findCurrentZone zones ⟨lat, lon⟩) = findCurrentZone zones ⟨lat, lon⟩ := by
    cases hf : findCurrentZone zones ⟨lat, lon⟩ with
    | none => simp [jsOrNull]
    | some n =>
        obtain ⟨z, hmem, hname, _⟩ := findCurrentZone_mem hf
        have hn : n ≠ "" := hname ▸ hz z hmem
        simp [jsOrNull, hn]
  have heff : effPrevZone (trackVehicleLocation zones store vid lat lon ts1).store vid =
      findCurrentZone zones ⟨lat, lon⟩ := by
    rw [track_effPrevZone_self, hjs]
  refine ⟨?_, ?_, ?_⟩
  · simp only [track_result_eq, heff, detectEvents_self]
  · simp only [track_result_eq, heff, detectEvents_self]
  · rw [track_prevEvents, heff, detectEvents_self]
    simp only [List.append_nil]
    apply capEvents_of_le
    rw [track_prevEvents]
    exact capEvents_length_le _

/-- C8 at a concrete input: re-reporting the Downtown vertex point for
`"t1"` on the initialized catalog triggers nothing and keeps the history. -/
theorem trackLocation_idempotent_witness :
    (trackVehicleLocation initializeZones
        (trackVehicleLocation initializeZones [] "t1" 40.7128 (-74.0060) 1).store
        "t1" 40.7128 (-74.0060) 2).result.eventTriggered = false ∧
    (trackVehicleLocation initializeZones
        (trackVehicleLocation initializeZones [] "t1" 40.7128 (-74.0060) 1).store
        "t1" 40.7128 (-74.0060) 2).result.event = none ∧
    prevEvents (trackVehicleLocation initializeZones
        (trackVehicleLocation initializeZones [] "t1" 40.7128 (-74.0060) 1).store
        "t1" 40.7128 (-74.0060) 2).store "t1" =
      prevEvents (trackVehicleLocation initializeZones [] "t1" 40.7128 (-74.0060) 1).store "t1" :=
  trackLocation_idempotent initializeZones
    (by simp [initializeZones]) [] "t1" 40.7128 (-74.0060) 1 2

/-- C9: `getVehicleStatus` is absent exactly when the id has no entry (a
reset clears all entries and a track call for the id always creates one,
while calls for other ids leave it untouched); for a present entry it
returns the stored zone (through the `|| null` coercion, the identity on
every value except `some ""`), timestamp and location, with `recentEvents`
the last 10 stored events in order and `totalEventsTracked` the full
stored count.  The embedding of `getVehicleStatus` returns no store, so
the call mutates nothing. -/
theorem getVehicleStatus_spec (store : VehicleStore) (vid : String) :
    (getVehicleStatus store vid = none ↔ storeGet store vid = none) ∧
    getVehicleStatus (clearAllVehicleData store) vid = none ∧
    (∀ (zones : List Zone) (lat lon : ℚ) (ts : ℤ),
      storeGet (trackVehicleLocation zones store vid lat lon ts).store vid ≠ none) ∧
    (∀ (zones : List Zone) (vid' : String) (lat lon : ℚ) (ts : ℤ), vid ≠ vid' →
      storeGet (trackVehicleLocation zones store vid' lat lon ts).store vid =
        storeGet store vid) ∧
    (∀ d, storeGet store vid = some d → ∃ st,
      getVehicleStatus store vid = some st ∧
      st.currentZone = jsOrNull d.location.currentZone ∧
      (d.location.currentZone ≠ some "" → st.currentZone = d.location.currentZone) ∧
      st.lastLocationUpdate = d.location.timestamp ∧
      st.lastLocation = ⟨d.location.latitude, d.location.longitude⟩ ∧
      st.recentEvents = d.events.drop (d.events.length - 10) ∧
      st.recentEvents.length = min d.events.length 10 ∧
      st.recentEvents <:+ d.events ∧
      st.totalEventsTracked = d.events.length) := by
  refine ⟨?_, ?_, ?_, ?_, ?_⟩
  · unfold getVehicleStatus
    cases storeGet store vid <;> simp
  · simp [getVehicleStatus, clearAllVehicleData, storeGet]
  · intro zones lat lon ts
    rw [track_storeGet_self]
    simp
  · intro zones vid' lat lon ts h
    exact track_storeGet_ne zones store vid' vid lat lon ts h
  · intro d hd
    refine ⟨⟨vid, jsOrNull d.location.currentZone, d.location.timestamp,
      ⟨d.location.latitude, d.location.longitude⟩,
      d.events.drop (d.events.length - 10), d.events.length⟩,
      by simp [getVehicleStatus, hd], rfl, ?_, rfl, rfl, rfl, ?_, ?_, rfl⟩
    · intro hne
      cases hcz : d.location.currentZone with
      | none => simp [jsOrNull]
      | some s =>
          have hs : s ≠ "" := fun h => hne (by rw [hcz, h])
          simp [jsOrNull, hs]
    · rw [List.length_drop]
      omega
    · exact List.drop_suffix _ _

lemma effPrevZone_some {s : VehicleStore} {vid p : String}
    (h : effPrevZone s vid = some p) :
    ∃ d0, storeGet s vid = some d0 ∧ d0.location.currentZone = some p ∧ p ≠ "" := by
  unfold effPrevZone at h
  cases hsg : storeGet s vid with
  | none => rw [hsg] at h; simp at h
  | some d0 =>
      rw [hsg] at h
      obtain ⟨h1, h2⟩ := jsOrNull_eq_some.mp h
      exact ⟨d0, rfl, h1, h2⟩

lemma effPrevZone_none {s : VehicleStore} {vid : String}
    (h : effPrevZone s vid = none) :
    storeGet s vid = none ∨ ∃ d0, storeGet s vid = some d0 ∧
      (d0.location.currentZone = none ∨ d0.location.currentZone = some "") := by
  unfold effPrevZone at h
  cases hsg : storeGet s vid with
  | none => exact Or.inl rfl
  | some d0 =>
      rw [hsg] at h
      exact Or.inr ⟨d0, rfl, jsOrNull_eq_none.mp h⟩

lemma getLast?_append_pair {α : Type _} (xs : List α) (a b : α) :
    (xs ++ [a, b]).getLast? = some b := by
  rw [show xs ++ [a, b] = (xs ++ [a]) ++ [b] by simp]
  exact List.getLast?_concat _

lemma prevEvents_of_storeGet {s : VehicleStore} {vid : String} {d0 : VehicleData}
    (h : storeGet s vid = some d0) : prevEvents s vid = d0.events := by
  simp [prevEvents, h]

/-- The history–state coherence invariant, strengthened with the fact
that a stored current zone name is never the empty string (needed to see
through the `|| null` coercion), proved over all reachable states. -/
lemma storeInv_of_reachable (zones : List Zone) (hz : ∀ z ∈ zones, z.name ≠ "")
    {store : VehicleStore} (hr : Reachable zones store) :
    ∀ vid d, storeGet store vid = some d →
      (∀ z, d.location.currentZone = some z →
        z ≠ "" ∧ ∃ ts : ℤ, d.events.getLast? = some ⟨EventType.enter, z, ts⟩) ∧
      (d.location.currentZone = none →
        ∀ e, d.events.getLast? = some e → e.type = EventType.exit) := by
  induction hr with
  | init =>
      intro vid d hd
      simp [storeGet] at hd
  | reset s _hs _ih =>
      intro vid d hd
      simp [clearAllVehicleData, storeGet] at hd
  | track s vid' lat lon ts _hs ih =>
      intro vid d hd
      by_cases hv : vid = vid'
      · subst hv
        rw [track_storeGet_self] at hd
        have hd' : d = _ := (Option.some.inj hd).symm
        subst hd'
        rcases hpz : effPrevZone s vid with _ | p <;>
          rcases hnz : findCurrentZone zones ⟨lat, lon⟩ with _ | n
        · -- previous none, new none: no event, zone stays none
          simp only [detectEvents_self, List.append_nil, capEvents_getLast?]
          refine ⟨fun z hzz => absurd hzz (by simp), ?_⟩
          intro _ e he
          rcases effPrevZone_none hpz with hsg | ⟨d0, hsg, hczero⟩
          · rw [show prevEvents s vid = [] by simp [prevEvents, hsg]] at he
            simp at he
          · rw [prevEvents_of_storeGet hsg] at he
            rcases hczero with hc | hc
            · exact (ih vid d0 hsg).2 hc e he
            · exact absurd rfl ((ih vid d0 hsg).1 "" hc).1
        · -- previous none, new some n: a single Enter(n) is pushed
          simp only [detectEvents_none_some, capEvents_getLast?]
          refine ⟨?_, fun h => absurd h (by simp)⟩
          intro z hzz
          obtain rfl : n = z := Option.some.inj hzz
          obtain ⟨zz, hmem, hname, _⟩ := findCurrentZone_mem hnz
          exact ⟨hname ▸ hz zz hmem, ts, by rw [List.getLast?_concat]⟩
        · -- previous some p, new none: a single Exit(p) is pushed
          simp only [detectEvents_some_none, capEvents_getLast?]
          refine ⟨fun z hzz => absurd hzz (by simp), ?_⟩
          intro _ e he
          simp only [List.getLast?_concat] at he
          obtain rfl : (⟨EventType.exit, p, ts⟩ : ZoneEvent) = e := Option.some.inj he
          rfl
        · -- previous some p, new some n
          by_cases hpn : p = n
          · subst hpn
            simp only [detectEvents_self, List.append_nil, capEvents_getLast?]
            refine ⟨?_, fun h => absurd h (by simp)⟩
            intro z hzz
            obtain rfl : p = z := Option.some.inj hzz
            obtain ⟨d0, hsg, hc, _⟩ := effPrevZone_some hpz
            have hinv := (ih vid d0 hsg).1 p hc
            rw [prevEvents_of_storeGet hsg]
            exact hinv
          · simp only [detectEvents_some_some hpn, capEvents_getLast?]
            refine ⟨?_, fun h => absurd h (by simp)⟩
            intro z hzz
            obtain rfl : n = z := Option.some.inj hzz
            obtain ⟨zz, hmem, hname, _⟩ := findCurrentZone_mem hnz
            exact ⟨hname ▸ hz zz hmem, ts, by rw [getLast?_append_pair]⟩
      · rw [track_storeGet_ne zones s vid' vid lat lon ts hv] at hd
        exact ih vid d hd

/-- C10 (amended): in every tracker state reachable by `trackVehicleLocation`
and reset calls against a fixed catalog whose zone names are non-empty,
a tracked vehicle whose stored `currentZone` is some zone `Z` has a
non-empty history whose most recent event is Enter(`Z`), and one whose
stored `currentZone` is none has, when its history is non-empty, an Exit
event as its most recent event; the cap's oldest-first eviction never
removes the most recent event. -/
theorem history_coherence_invariant (zones : List Zone)
    (hz : ∀ z ∈ zones, z.name ≠ "") (store : VehicleStore)
    (hr : Reachable zones store) (vid : String) (d : VehicleData)
    (hd : storeGet store vid = some d) :
    (∀ z : String, d.location.currentZone = some z →
      ∃ ts : ℤ, d.events.getLast? = some ⟨EventType.enter, z, ts⟩) ∧
    (d.location.currentZone = none →
      ∀ e, d.events.getLast? = some e → e.type = EventType.exit) := by
  have h := storeInv_of_reachable zones hz hr vid d hd
  exact ⟨fun z hzz => (h.1 z hzz).2, h.2⟩

/-- C10 (amended) at a concrete input: after one call entering Downtown on
the initialized catalog, the stored vehicle's last event is an Enter for
Downtown. -/
theorem history_coherence_invariant_witness :
    ∃ ts : ℤ,
      (⟨⟨"t1", 40.7128, -74.0060, 1, some "Downtown"⟩,
        [⟨EventType.enter, "Downtown", 1⟩]⟩ : VehicleData).events.getLast? =
        some ⟨EventType.enter, "Downtown", ts⟩ :=
  (history_coherence_invariant initializeZones (by simp [initializeZones])
    (trackVehicleLocation initializeZones [] "t1" 40.7128 (-74.0060) 1).store
    (Reachable.track [] "t1" 40.7128 (-74.0060) 1 Reachable.init) "t1"
    ⟨⟨"t1", 40.7128, -74.0060, 1, some "Downtown"⟩, [⟨EventType.enter, "Downtown", 1⟩]⟩
    (by simp [track_storeGet_self, findZone_point1, effPrevZone, prevEvents, storeGet,
      jsOrNull, detectEvents, capEvents_eq_drop, MAX_EVENTS_PER_VEHICLE])).1 "Downtown" rfl

/-- A zone whose `name` is the empty string, allowed by the `Zone` data
type; it covers the origin. -/
def cZone : Zone :=
  { id := "z1", name := "", description := "zone with empty name",
    type := ZoneType.circle, center := some (0, 0), radius := some 1 }

/-- The empty-name zone contains the origin. -/
lemma cZone_origin : findCurrentZone [cZone] ⟨0, 0⟩ = some "" := by
  norm_num [findCurrentZone, cZone, isPointInZone, isPointInCircle, distSq]

/-- The point `(50, 50)` is outside the empty-name zone. -/
lemma cZone_far : findCurrentZone [cZone] ⟨50, 50⟩ = none := by
  norm_num [findCurrentZone, cZone, isPointInZone, isPointInCircle, distSq]

/-- Counterexample store: vehicle `"v"` enters the empty-name zone, then
leaves it. -/
def cStore1 : VehicleStore := (trackVehicleLocation [cZone] [] "v" 0 0 1).store

/-- Counterexample store after the second call. -/
def cStore2 : VehicleStore := (trackVehicleLocation [cZone] cStore1 "v" 50 50 2).store

/-- C10 as stated is false "under any catalog": with a catalog containing
a zone named `""`, the reachable state after tracking `"v"` at the origin
and then at `(50, 50)` stores `currentZone = none` while the most recent
(and only) history event is an Enter, not an Exit — the `|| null`
coercion of the stored `""` makes the exit transition undetected. -/
theorem history_coherence_counterexample :
    Reachable [cZone] cStore2 ∧
    storeGet cStore2 "v" =
      some ⟨⟨"v", 50, 50, 2, none⟩, [⟨EventType.enter, "", 1⟩]⟩ ∧
    (⟨⟨"v", 50, 50, 2, none⟩, [⟨EventType.enter, "", 1⟩]⟩ : VehicleData).location.currentZone
      = none ∧
    (⟨⟨"v", 50, 50, 2, none⟩, [⟨EventType.enter, "", 1⟩]⟩ : VehicleData).events.getLast?
      = some ⟨EventType.enter, "", 1⟩ ∧
    EventType.enter ≠ EventType.exit := by
  refine ⟨?_, ?_, rfl, rfl, by decide⟩
  · exact Reachable.track cStore1 "v" 50 50 2 (Reachable.track [] "v" 0 0 1 Reachable.init)
  · simp [cStore2, cStore1, track_storeGet_self, cZone_origin, cZone_far, effPrevZone,
      prevEvents, storeGet_storeSet_self, storeGet, jsOrNull, detectEvents, capEvents_eq_drop,
      MAX_EVENTS_PER_VEHICLE]

end Geofence
